import Mathlib

/-!
A shallow embedding of the camera application in `src/src/main.rs`
(struct `CameraApp` and its methods).  External collaborators — the
OpenCV capture device, the video-writer backend, the JPEG encoder and
the wall clock — are modelled as explicit environment records passed to
each operation; each field of such a record is the outcome of one
library call the Rust code makes.  Mutex locks are modelled as always
succeeding: the application drives every operation from the single UI
thread, so a lock can never be poisoned.  The `AtomicBool` recording
flag becomes an ordinary boolean field.  A Rust panic (here: an
out-of-bounds slice index in the pixel-unpacking loop) is modelled by
`Option`, with `none` standing for the panic.
-/

set_option autoImplicit false

namespace CameraModel

/-- `enum CaptureMode` (main.rs lines 18-22). -/
inductive CaptureMode
  | Photo
  | Video
  deriving DecidableEq

/-- `enum CameraPosition` (main.rs lines 25-29). -/
inductive CameraPosition
  | Front
  | Rear
  deriving DecidableEq

/-- An opened `VideoCapture` handle.  The handle itself carries no data
relevant to the session; every device interaction goes through an
environment record. -/
inductive VideoCapture
  | mk
  deriving DecidableEq

/-- An open `VideoWriter` handle, remembering the arguments with which
`VideoWriter::new` was called (main.rs line 202): output path, fourcc
codec id, frames per second, and frame size.  `fps` is the `f64`
argument, modelled as a rational (the code only compares it against the
exact bounds 0 and 120 and substitutes the exact constant 30). -/
structure VideoWriter where
  path : String
  fourcc : Int
  fps : Rat
  frameWidth : Int
  frameHeight : Int
  deriving DecidableEq

/-- An OpenCV `Mat` as the application observes it: reported size,
raw byte data, and the `empty()` flag. -/
structure Mat where
  width : Nat
  height : Nat
  data : List Nat
  isEmpty : Bool
  deriving DecidableEq

/-- `egui::Color32` restricted to what `from_rgb` produces. -/
structure Color32 where
  r : Nat
  g : Nat
  b : Nat
  deriving DecidableEq

/-- `egui::ColorImage` (size plus pixel vector), main.rs lines 287-290. -/
structure ColorImage where
  size : Nat × Nat
  pixels : List Color32
  deriving DecidableEq

/-- `struct CameraApp` (main.rs lines 35-56).  The `Arc<Mutex<…>>` and
`Arc<AtomicBool>` wrappers are elided: locks always succeed in the
single-threaded model, so each guarded cell becomes a plain field. -/
structure CameraApp where
  camera : Option VideoCapture
  video_writer : Option VideoWriter
  current_frame : Option ColorImage
  capture_mode : CaptureMode
  camera_position : CameraPosition
  is_recording : Bool
  camera_index : Int
  frame_width : Int
  frame_height : Int
  output_dir : String
  deriving DecidableEq

/-- `impl Default for CameraApp` (main.rs lines 63-82).  The side
effect of creating `camera_output/` on disk is outside the session
state. -/
def CameraApp.default : CameraApp :=
  { camera := none
    video_writer := none
    current_frame := none
    capture_mode := CaptureMode.Photo
    camera_position := CameraPosition.Rear
    is_recording := false
    camera_index := 0
    frame_width := 640
    frame_height := 480
    output_dir := "camera_output" }

/-- Environment for `init_camera`: outcomes of the four OpenCV calls it
makes.  `newOk` is whether `VideoCapture::new` returned `Ok`;
`isOpened` is `cam.is_opened().unwrap_or(false)`; `getWidth` and
`getHeight` are `cam.get(CAP_PROP_FRAME_WIDTH/HEIGHT)` with the `f64`
result already cast `as i32` (`none` = the call returned `Err`).  The
two `cam.set` requests have their results discarded by the code and
influence the device only through `getWidth`/`getHeight`. -/
structure InitEnv where
  newOk : Bool
  isOpened : Bool
  getWidth : Option Int
  getHeight : Option Int
  deriving DecidableEq

/-- `fn init_camera` (main.rs lines 99-125).  On success the
device-reported width/height overwrite the session fields and the
handle is stored; on any failure (constructor error or not-opened) the
session is left untouched — in particular `camera` keeps its previous
value. -/
def init_camera (s : CameraApp) (env : InitEnv) : CameraApp :=
  if env.newOk then
    if env.isOpened then
      let s1 := match env.getWidth with
        | some w => { s with frame_width := w }
        | none => s
      let s2 := match env.getHeight with
        | some h => { s1 with frame_height := h }
        | none => s1
      { s2 with camera := some VideoCapture.mk }
    else s
  else s

/-- `fn stop_recording` (main.rs lines 229-241).  `writer_lock.take()`
yields the writer only when one is present; only in that branch is the
writer dropped and the recording flag cleared. -/
def stop_recording (s : CameraApp) : CameraApp :=
  match s.video_writer with
  | some _ => { s with video_writer := none, is_recording := false }
  | none => s

/-- `fn switch_camera` (main.rs lines 131-148): conditional stop, drop
the camera handle, toggle the index 0 ⇄ 1, re-initialise. -/
def switch_camera (s : CameraApp) (env : InitEnv) : CameraApp :=
  let s1 := if s.is_recording then stop_recording s else s
  let s2 := { s1 with camera := none }
  let s3 := { s2 with camera_index := if s2.camera_index = 0 then 1 else 0 }
  init_camera s3 env

/-- Environment for `capture_photo`: `timestamp` is
`Local::now().format("%Y%m%d_%H%M%S")`; `readOk` is
`cam.read(&mut frame).unwrap_or(false)`; `frame` is the `Mat` the read
produced; `imwriteOk` is `none` when `imgcodecs::imwrite` returned
`Err` and `some b` when it returned `Ok(b)`. -/
structure PhotoEnv where
  timestamp : String
  readOk : Bool
  frame : Mat
  imwriteOk : Option Bool
  deriving DecidableEq

/-- Observable outcome of `capture_photo`: the session state it leaves
behind, the files it created on disk, and the console messages it
printed (the `println!`/`eprintln!` calls, abbreviated to ASCII). -/
structure PhotoResult where
  state : CameraApp
  filesCreated : List String
  messages : List String
  deriving DecidableEq

/-- `fn capture_photo` (main.rs lines 154-173).  Takes `&self`; no
session field is ever assigned, so the state passes through unchanged
on every path.  With no camera handle the `if let Some(cam)` test fails
and the function falls through silently: no file, no message.  A file
is recorded as created when `imwrite` returned `Ok`. -/
def capture_photo (s : CameraApp) (env : PhotoEnv) : PhotoResult :=
  match s.camera with
  | some _ =>
    if env.readOk ∧ ¬env.frame.isEmpty then
      let filename := s.output_dir ++ "/photo_" ++ env.timestamp ++ ".jpg"
      match env.imwriteOk with
      | some _ =>
        { state := s, filesCreated := [filename]
          messages := ["saved photo: " ++ filename] }
      | none =>
        { state := s, filesCreated := []
          messages := ["failed to save photo"] }
    else
      { state := s, filesCreated := [], messages := [] }
  | none => { state := s, filesCreated := [], messages := [] }

/-- Environment for `start_recording`: timestamp for the filename, the
two `VideoWriter::fourcc` results (`none` = `Err`), the
`cam.get(CAP_PROP_FPS)` result (`none` = `Err`), whether
`VideoWriter::new` returned `Ok`, and `writer.is_opened().unwrap_or(false)`. -/
structure StartEnv where
  timestamp : String
  fourccMp4v : Option Int
  fourccMjpg : Option Int
  fpsQuery : Option Rat
  writerNewOk : Bool
  writerOpened : Bool
  deriving DecidableEq

/-- The fps passed to `VideoWriter::new` (main.rs lines 197-198):
`cam.get(CAP_PROP_FPS).unwrap_or(30.0)`, then kept only when
`fps > 0.0 && fps <= 120.0`, else replaced by 30. -/
def recordingFps (env : StartEnv) : Rat :=
  let fps := env.fpsQuery.getD 30
  if 0 < fps ∧ fps ≤ 120 then fps else 30

/-- The writer `start_recording` would construct (main.rs lines
185-202): timestamped path under the output directory, fourcc with the
mp4v → MJPG → 0 fallback chain, the clamped fps, and the session's
effective frame size. -/
def newWriter (s : CameraApp) (env : StartEnv) : VideoWriter :=
  { path := s.output_dir ++ "/video_" ++ env.timestamp ++ ".mp4"
    fourcc := env.fourccMp4v.getD (env.fourccMjpg.getD 0)
    fps := recordingFps env
    frameWidth := s.frame_width
    frameHeight := s.frame_height }

/-- `fn start_recording` (main.rs lines 180-223).  Requires only a
camera handle — the recording flag is never consulted.  When
`VideoWriter::new` succeeds and the writer reports opened, the handle
is stored (replacing any previous one) and the flag is set; on every
failure path the session is left untouched. -/
def start_recording (s : CameraApp) (env : StartEnv) : CameraApp :=
  match s.camera with
  | some _ =>
    if env.writerNewOk then
      if env.writerOpened then
        { s with video_writer := some (newWriter s env), is_recording := true }
      else s
    else s
  | none => s

/-- `data.chunks(3)` (main.rs line 280): split the byte buffer into
consecutive chunks of 3, the final chunk possibly shorter. -/
def chunks3 : List Nat → List (List Nat)
  | [] => []
  | [a] => [[a]]
  | [a, b] => [[a, b]]
  | a :: b :: c :: rest => [a, b, c] :: chunks3 rest

/-- The closure body `|rgb| egui::Color32::from_rgb(rgb[0], rgb[1],
rgb[2])` (main.rs line 281).  Indexing a chunk shorter than 3 is a Rust
panic, modelled as `none`. -/
def chunkToPixel (rgb : List Nat) : Option Color32 :=
  match rgb[0]?, rgb[1]?, rgb[2]? with
  | some r, some g, some b => some ({ r := r, g := g, b := b })
  | _, _, _ => none

/-- The `.map(…)` over the chunks feeding `.collect()` (main.rs lines
279-282); `none` when any chunk access panics. -/
def mapPixels : List (List Nat) → Option (List Color32)
  | [] => some []
  | c :: cs =>
    match chunkToPixel c, mapPixels cs with
    | some p, some ps => some (p :: ps)
    | _, _ => none

/-- The whole pixel-unpacking pipeline of `update_frame` (main.rs lines
279-282) on a raw byte buffer. -/
def unpackPixels (data : List Nat) : Option (List Color32) :=
  mapPixels (chunks3 data)

/-- Environment for one `update_frame` tick: the camera read outcome
and frame, whether `cvt_color` returned `Ok`, the converted RGB `Mat`
(whose `size()` and `data_bytes()` calls may each fail, flags `sizeOk`
and `dataOk`).  The `writer.write(&frame)` result is discarded by the
code (`let _ = …`, main.rs line 262) and does not touch session state,
so it needs no field. -/
structure TickEnv where
  readOk : Bool
  frame : Mat
  cvtOk : Bool
  rgbFrame : Mat
  sizeOk : Bool
  dataOk : Bool
  deriving DecidableEq

/-- `fn update_frame` (main.rs lines 250-303).  Returns `none` exactly
when the pixel-unpacking loop panics on an out-of-bounds chunk index;
every other failure (no camera, failed or empty read, conversion /
size / data failure, pixel-count mismatch) silently leaves the state
unchanged.  On full success only `current_frame` is replaced. -/
def update_frame (s : CameraApp) (env : TickEnv) : Option CameraApp :=
  match s.camera with
  | none => some s
  | some _ =>
    if env.readOk ∧ ¬env.frame.isEmpty then
      if env.cvtOk then
        if env.sizeOk then
          let width := env.rgbFrame.width
          let height := env.rgbFrame.height
          if env.dataOk then
            match unpackPixels env.rgbFrame.data with
            | some pixels =>
              if pixels.length = width * height then
                let img : ColorImage := { size := (width, height), pixels := pixels }
                some ({ s with current_frame := some img })
              else some s
            | none => none
          else some s
        else some s
      else some s
    else some s

/-- The photo-mode button handler (main.rs lines 360-369): stop
recording if active, then select photo mode. -/
def set_mode_photo (s : CameraApp) : CameraApp :=
  let s1 := if s.is_recording then stop_recording s else s
  { s1 with capture_mode := CaptureMode.Photo }

/-- The video-mode button handler (main.rs lines 372-377). -/
def set_mode_video (s : CameraApp) : CameraApp :=
  { s with capture_mode := CaptureMode.Video }

/-- The rear-camera button handler (main.rs lines 384-393): only when
currently on the front camera, record the new position and switch. -/
def select_rear (s : CameraApp) (env : InitEnv) : CameraApp :=
  if s.camera_position ≠ CameraPosition.Rear then
    switch_camera ({ s with camera_position := CameraPosition.Rear }) env
  else s

/-- The front-camera button handler (main.rs lines 396-405). -/
def select_front (s : CameraApp) (env : InitEnv) : CameraApp :=
  if s.camera_position ≠ CameraPosition.Front then
    switch_camera ({ s with camera_position := CameraPosition.Front }) env
  else s

/-- A session whose camera opened successfully (the `Default` state
after a successful `init_camera` that confirmed the requested
640×480). -/
def camApp : CameraApp :=
  { CameraApp.default with camera := some VideoCapture.mk }

/-- A writer handle as an earlier `start_recording` would have left
it. -/
def oldWriter : VideoWriter :=
  { path := "camera_output/video_20250101_120000.mp4", fourcc := 1983148141
    fps := 30, frameWidth := 640, frameHeight := 480 }

/-- A session in the middle of a recording. -/
def recApp : CameraApp :=
  { camApp with
      video_writer := some oldWriter
      is_recording := true
      capture_mode := CaptureMode.Video }

/-- An (unreachable) session whose recording flag is set although no
writer handle exists; used to exercise `stop_recording` on the
flag-without-handle combination. -/
def flaggedNoWriterApp : CameraApp :=
  { CameraApp.default with is_recording := true }

/-- An empty `Mat` as a failed read leaves it. -/
def emptyMat : Mat :=
  { width := 0, height := 0, data := [], isEmpty := true }

/-- A well-formed 2×1 RGB `Mat` (six bytes). -/
def someMat : Mat :=
  { width := 2, height := 1, data := [1, 2, 3, 4, 5, 6], isEmpty := false }

/-- A `Mat` whose byte buffer has length 4 — not a multiple of 3, so
its final `chunks(3)` chunk is the single byte `[7]`. -/
def badMat : Mat :=
  { width := 2, height := 1, data := [128, 64, 32, 7], isEmpty := false }

/-- A device that opens and confirms the requested 640×480. -/
def initEnvOk : InitEnv :=
  { newOk := true, isOpened := true, getWidth := some 640, getHeight := some 480 }

/-- A device that opens but applies 320×200 instead of the request. -/
def initEnv320 : InitEnv :=
  { newOk := true, isOpened := true, getWidth := some 320, getHeight := some 200 }

/-- A photo attempt in which every library call succeeds. -/
def photoEnvTry : PhotoEnv :=
  { timestamp := "20250101_120000", readOk := true, frame := someMat
    imwriteOk := some true }

/-- A recording start in which every library call succeeds and the
device reports 30 fps. -/
def startEnvOk : StartEnv :=
  { timestamp := "20250101_130000", fourccMp4v := some 1983148141
    fourccMjpg := some 1196444237, fpsQuery := some 30
    writerNewOk := true, writerOpened := true }

/-- A recording start against a device that reports 200 fps. -/
def fpsEnv200 : StartEnv :=
  { startEnvOk with fpsQuery := some 200 }

/-- A recording start whose freshly created writer reports
not-opened. -/
def notOpenedEnv : StartEnv :=
  { startEnvOk with writerOpened := false }

/-- A tick whose camera read fails. -/
def failTickEnv : TickEnv :=
  { readOk := false, frame := emptyMat, cvtOk := true, rgbFrame := someMat
    sizeOk := true, dataOk := true }

/-- A tick whose converted frame carries the 4-byte buffer of
`badMat`. -/
def badTickEnv : TickEnv :=
  { readOk := true, frame := someMat, cvtOk := true, rgbFrame := badMat
    sizeOk := true, dataOk := true }

/-- A fully successful tick on the 2×1 frame. -/
def goodTickEnv : TickEnv :=
  { readOk := true, frame := someMat, cvtOk := true, rgbFrame := someMat
    sizeOk := true, dataOk := true }

/-- The successful recording start that produced `oldWriter`. -/
def startEnvRec : StartEnv :=
  { startEnvOk with timestamp := "20250101_120000" }

/-- A decoded preview image as a successful tick stores it. -/
def someImage : ColorImage :=
  { size := (2, 1)
    pixels := [{ r := 1, g := 2, b := 3 }, { r := 4, g := 5, b := 6 }] }

/-- A session that has already shown a preview frame. -/
def viewedApp : CameraApp :=
  { camApp with current_frame := some someImage }

/-- The session states the application can actually be in: the
`Default` state, closed under every operation the program performs
(initialisation, ticks that do not panic, the button handlers, and the
teardown path, which is a conditional `stop_recording`). -/
inductive Reachable : CameraApp → Prop
  | base : Reachable CameraApp.default
  | init : ∀ s env, Reachable s → Reachable (init_camera s env)
  | tick : ∀ s env s2, Reachable s → update_frame s env = some s2 → Reachable s2
  | switch : ∀ s env, Reachable s → Reachable (switch_camera s env)
  | photo : ∀ s env, Reachable s → Reachable (capture_photo s env).state
  | start : ∀ s env, Reachable s → Reachable (start_recording s env)
  | stop : ∀ s, Reachable s → Reachable (stop_recording s)
  | modePhoto : ∀ s, Reachable s → Reachable (set_mode_photo s)
  | modeVideo : ∀ s, Reachable s → Reachable (set_mode_video s)
  | posRear : ∀ s env, Reachable s → Reachable (select_rear s env)
  | posFront : ∀ s env, Reachable s → Reachable (select_front s env)

/-- The writer/flag consistency invariant from the spec: the writer
handle is `Some` iff the recording flag is true. -/
def writerInv (s : CameraApp) : Prop :=
  s.video_writer.isSome = true ↔ s.is_recording = true

instance (s : CameraApp) : Decidable (writerInv s) := by
  unfold writerInv
  infer_instance

/-! ## Helper lemmas -/

/-- `init_camera` never touches the writer handle or the recording
flag, whatever the device does. -/
theorem init_camera_writer_rec (s : CameraApp) (env : InitEnv) :
    (init_camera s env).video_writer = s.video_writer ∧
    (init_camera s env).is_recording = s.is_recording := by
  rcases env with ⟨no, io, gw, gh⟩
  cases no <;> cases io <;> cases gw <;> cases gh <;> simp [init_camera]

/-- On a fully successful initialisation the session takes the
device-reported width and height and stores the handle. -/
theorem init_camera_success (s : CameraApp) (env : InitEnv) (w h : Int)
    (hn : env.newOk = true) (ho : env.isOpened = true)
    (hw : env.getWidth = some w) (hh : env.getHeight = some h) :
    init_camera s env =
      { s with frame_width := w, frame_height := h, camera := some VideoCapture.mk } := by
  unfold init_camera
  rw [hn, ho, hw, hh]
  rfl

/-- Under the writer/flag invariant, stopping while recording clears
both the flag and the handle. -/
theorem stop_recording_stopped (s : CameraApp) (h : writerInv s)
    (hr : s.is_recording = true) :
    (stop_recording s).is_recording = false ∧
    (stop_recording s).video_writer = none := by
  have hsome : s.video_writer.isSome = true := h.mpr hr
  cases hw : s.video_writer with
  | none => rw [hw] at hsome; simp at hsome
  | some w => simp [stop_recording, hw]

/-- `stop_recording` preserves the writer/flag invariant. -/
theorem stop_recording_writerInv (s : CameraApp) (h : writerInv s) :
    writerInv (stop_recording s) := by
  cases hw : s.video_writer with
  | none => simpa [stop_recording, hw] using h
  | some w => simp [stop_recording, hw, writerInv]

/-- `switch_camera` unfolded: a conditional stop, then
re-initialisation of the state with the handle dropped and the index
toggled. -/
theorem switch_camera_eq (s : CameraApp) (env : InitEnv) :
    switch_camera s env =
      init_camera
        ({ (if s.is_recording then stop_recording s else s) with
            camera := none
            camera_index :=
              if (if s.is_recording then stop_recording s else s).camera_index = 0
              then 1 else 0 }) env := rfl

/-- Under the writer/flag invariant, a camera switch always ends with
recording off and no writer handle. -/
theorem switch_camera_stopped (s : CameraApp) (env : InitEnv) (h : writerInv s) :
    (switch_camera s env).is_recording = false ∧
    (switch_camera s env).video_writer = none := by
  rw [switch_camera_eq]
  obtain ⟨hw, hr⟩ := init_camera_writer_rec
    ({ (if s.is_recording then stop_recording s else s) with
        camera := none
        camera_index :=
          if (if s.is_recording then stop_recording s else s).camera_index = 0
          then 1 else 0 }) env
  rw [hw, hr]
  cases hrec : s.is_recording with
  | true =>
    obtain ⟨h1, h2⟩ := stop_recording_stopped s h hrec
    simp [hrec, h1, h2]
  | false =>
    have hnone : s.video_writer = none := by
      cases hvw : s.video_writer with
      | none => rfl
      | some w =>
        have hcontra : s.is_recording = true := h.mp (by rw [hvw]; rfl)
        rw [hrec] at hcontra
        exact absurd hcontra (by simp)
    simp [hrec, hnone]

/-- `switch_camera` preserves the writer/flag invariant. -/
theorem switch_camera_writerInv (s : CameraApp) (env : InitEnv)
    (h : writerInv s) : writerInv (switch_camera s env) := by
  obtain ⟨h1, h2⟩ := switch_camera_stopped s env h
  unfold writerInv
  rw [h1, h2]
  simp

/-- With an open camera, a writer that was created and reports opened
is stored and the flag is set, in one step of the model. -/
theorem start_recording_success (s : CameraApp) (env : StartEnv)
    (hc : s.camera.isSome = true) (hn : env.writerNewOk = true)
    (ho : env.writerOpened = true) :
    start_recording s env =
      { s with video_writer := some (newWriter s env), is_recording := true } := by
  cases hcam : s.camera with
  | none => rw [hcam] at hc; simp at hc
  | some c => simp [start_recording, hcam, hn, ho]

/-- On every failure path (no camera, constructor error, writer not
opened) `start_recording` returns the session unchanged. -/
theorem start_recording_unchanged (s : CameraApp) (env : StartEnv)
    (h : s.camera = none ∨ env.writerNewOk = false ∨ env.writerOpened = false) :
    start_recording s env = s := by
  unfold start_recording
  rcases h with hc | hn | ho
  · rw [hc]
  · cases s.camera <;> simp [hn]
  · cases s.camera <;> simp [ho]

/-- `start_recording` preserves the writer/flag invariant. -/
theorem start_recording_writerInv (s : CameraApp) (env : StartEnv)
    (h : writerInv s) : writerInv (start_recording s env) := by
  cases hcam : s.camera with
  | none => rw [start_recording_unchanged s env (Or.inl hcam)]; exact h
  | some c =>
    cases hn : env.writerNewOk with
    | false => rw [start_recording_unchanged s env (Or.inr (Or.inl hn))]; exact h
    | true =>
      cases ho : env.writerOpened with
      | false => rw [start_recording_unchanged s env (Or.inr (Or.inr ho))]; exact h
      | true =>
        rw [start_recording_success s env (by rw [hcam]; rfl) hn ho]
        simp [writerInv]

/-- `capture_photo` passes the session state through unchanged on
every path. -/
theorem capture_photo_state_eq (s : CameraApp) (env : PhotoEnv) :
    (capture_photo s env).state = s := by
  unfold capture_photo
  cases s.camera with
  | none => rfl
  | some c =>
    by_cases hr : env.readOk ∧ ¬env.frame.isEmpty
    · simp only [hr, if_true]
      cases env.imwriteOk <;> rfl
    · simp only [hr, if_false]

/-- A tick that does not panic leaves the writer handle and the
recording flag exactly as they were. -/
theorem update_frame_writer_rec (s s2 : CameraApp) (env : TickEnv)
    (h : update_frame s env = some s2) :
    s2.video_writer = s.video_writer ∧ s2.is_recording = s.is_recording := by
  unfold update_frame at h
  cases hcam : s.camera with
  | none => rw [hcam] at h; cases h; exact ⟨rfl, rfl⟩
  | some c =>
    rw [hcam] at h
    by_cases hr : env.readOk ∧ ¬env.frame.isEmpty
    · rw [if_pos hr] at h
      by_cases hcv : env.cvtOk = true
      · rw [if_pos hcv] at h
        by_cases hs : env.sizeOk = true
        · rw [if_pos hs] at h
          by_cases hd : env.dataOk = true
          · rw [if_pos hd] at h
            cases hup : unpackPixels env.rgbFrame.data with
            | none => simp [hup] at h
            | some pixels =>
              simp only [hup] at h
              by_cases hl : pixels.length = env.rgbFrame.width * env.rgbFrame.height
              · rw [if_pos hl] at h
                cases h
                exact ⟨rfl, rfl⟩
              · rw [if_neg hl] at h
                cases h
                exact ⟨rfl, rfl⟩
          · rw [if_neg hd] at h; cases h; exact ⟨rfl, rfl⟩
        · rw [if_neg hs] at h; cases h; exact ⟨rfl, rfl⟩
      · rw [if_neg hcv] at h; cases h; exact ⟨rfl, rfl⟩
    · rw [if_neg hr] at h; cases h; exact ⟨rfl, rfl⟩

/-- A tick whose read fails or whose frame is empty is a complete
no-op. -/
theorem update_frame_skip_on_bad_read (s : CameraApp) (env : TickEnv)
    (h : env.readOk = false ∨ env.frame.isEmpty = true) :
    update_frame s env = some s := by
  unfold update_frame
  cases s.camera with
  | none => rfl
  | some c =>
    have hno : ¬(env.readOk ∧ ¬env.frame.isEmpty) := by
      rcases h with h | h <;> simp [h]
    rw [if_neg hno]

/-- Splitting a buffer whose length is a multiple of 3 yields only
complete 3-byte chunks, so the pixel map never hits an out-of-bounds
index. -/
theorem unpackPixels_isSome_of_mul3 :
    ∀ data : List Nat, data.length % 3 = 0 → (unpackPixels data).isSome = true
  | [], _ => rfl
  | [a], h => by simp at h
  | [a, b], h => by simp at h
  | a :: b :: c :: rest, h => by
    have h3 : rest.length % 3 = 0 := by
      simp [List.length] at h
      omega
    have ih := unpackPixels_isSome_of_mul3 rest h3
    unfold unpackPixels at ih ⊢
    cases hmp : mapPixels (chunks3 rest) with
    | none => rw [hmp] at ih; simp at ih
    | some ps => simp [chunks3, mapPixels, chunkToPixel, hmp]

/-- The writer/flag invariant holds in every reachable session
state. -/
theorem reachable_writerInv (s : CameraApp) (h : Reachable s) : writerInv s := by
  induction h with
  | base => decide
  | init s env _ ih =>
    obtain ⟨hw, hr⟩ := init_camera_writer_rec s env
    unfold writerInv at ih ⊢
    rw [hw, hr]; exact ih
  | tick s env s2 _ he ih =>
    obtain ⟨hw, hr⟩ := update_frame_writer_rec s s2 env he
    unfold writerInv at ih ⊢
    rw [hw, hr]; exact ih
  | switch s env _ ih => exact switch_camera_writerInv s env ih
  | photo s env _ ih => rw [capture_photo_state_eq s env]; exact ih
  | start s env _ ih => exact start_recording_writerInv s env ih
  | stop s _ ih => exact stop_recording_writerInv s ih
  | modePhoto s _ ih =>
    unfold set_mode_photo
    cases hrec : s.is_recording with
    | true =>
      have h2 := stop_recording_writerInv s ih
      simpa [writerInv, hrec] using h2
    | false => simpa [writerInv, hrec] using ih
  | modeVideo s _ ih => simpa [set_mode_video, writerInv] using ih
  | posRear s env _ ih =>
    unfold select_rear
    split
    · exact switch_camera_writerInv _ env (by simpa [writerInv] using ih)
    · exact ih
  | posFront s env _ ih =>
    unfold select_front
    split
    · exact switch_camera_writerInv _ env (by simpa [writerInv] using ih)
    · exact ih

/-- A tick can only return `none` (panic) through the pixel-unpacking
loop; with a buffer of complete 3-byte pixels every path yields a
state. -/
theorem update_frame_total_of_mul3 (s : CameraApp) (env : TickEnv)
    (h : env.rgbFrame.data.length % 3 = 0) :
    (update_frame s env).isSome = true := by
  unfold update_frame
  cases s.camera with
  | none => rfl
  | some c =>
    by_cases hr : env.readOk ∧ ¬env.frame.isEmpty
    · rw [if_pos hr]
      by_cases hcv : env.cvtOk = true
      · rw [if_pos hcv]
        by_cases hs : env.sizeOk = true
        · rw [if_pos hs]
          by_cases hd : env.dataOk = true
          · rw [if_pos hd]
            have hup := unpackPixels_isSome_of_mul3 env.rgbFrame.data h
            cases hup2 : unpackPixels env.rgbFrame.data with
            | none => rw [hup2] at hup; simp at hup
            | some pixels =>
              simp only [hup2]
              by_cases hl : pixels.length = env.rgbFrame.width * env.rgbFrame.height
              · rw [if_pos hl]; rfl
              · rw [if_neg hl]; rfl
          · rw [if_neg hd]; rfl
        · rw [if_neg hs]; rfl
      · rw [if_neg hcv]; rfl
    · rw [if_neg hr]; rfl

/-- `recApp` really arises from a run of the program: select video
mode, initialise the camera, start recording. -/
theorem recApp_reachable : Reachable recApp := by
  have h1 := Reachable.modeVideo CameraApp.default Reachable.base
  have h2 := Reachable.init (set_mode_video CameraApp.default) initEnvOk h1
  have h3 := Reachable.start
    (init_camera (set_mode_video CameraApp.default) initEnvOk) startEnvRec h2
  have heq : start_recording
      (init_camera (set_mode_video CameraApp.default) initEnvOk) startEnvRec = recApp := by
    decide
  rw [heq] at h3
  exact h3

/-! ## Claim theorems -/

/-- C1: in every reachable session state — the initial state and after
every operation (init, tick, switch, photo, start, stop, and the UI
mode/position handlers) — the video writer handle is `Some` iff the
recording flag is true.  (Each operation is atomic in this
single-threaded model, so no tick can observe a half-updated pair.) -/
theorem writer_handle_iff_recording_flag (s : CameraApp) (h : Reachable s) :
    writerInv s :=
  reachable_writerInv s h

/-- C1 witness: the invariant at the initial state. -/
theorem writer_handle_iff_recording_flag_witness :
    writerInv CameraApp.default :=
  writer_handle_iff_recording_flag CameraApp.default Reachable.base

/-- C2 counterexample: in a recording session (`recApp`, which is
reachable) a further `start_recording` is not a no-op — the code never
consults the recording flag, so it builds a fresh writer for a new
timestamped file and overwrites the stored handle. -/
theorem start_recording_while_recording_not_noop :
    start_recording recApp startEnvOk ≠ recApp := by decide

/-- C2 amended: when recording is already active, `start_recording`
with an open camera and a successfully created-and-opened new writer
replaces the writer handle by the freshly built writer and keeps the
flag set; it is not a no-op. -/
theorem start_recording_while_recording_replaces (s : CameraApp) (env : StartEnv)
    (hrec : s.is_recording = true) (hc : s.camera.isSome = true)
    (hn : env.writerNewOk = true) (ho : env.writerOpened = true) :
    start_recording s env =
      { s with video_writer := some (newWriter s env), is_recording := true } :=
  start_recording_success s env hc hn ho

/-- C2 witness: the replacement at the concrete recording session. -/
theorem start_recording_while_recording_replaces_witness :
    start_recording recApp startEnvOk =
      { recApp with
          video_writer := some (newWriter recApp startEnvOk)
          is_recording := true } :=
  start_recording_while_recording_replaces recApp startEnvOk rfl rfl rfl rfl

/-- C3 counterexample: with no open camera `capture_photo` emits no
message at all — the `if let Some(cam)` simply falls through — so it
does not report a DeviceUnavailable (or any) error, contrary to the
claim. -/
theorem capture_photo_no_camera_reports_nothing :
    (capture_photo CameraApp.default photoEnvTry).messages = [] := by decide

/-- C3 amended: `capture_photo` with no open camera is a silent no-op:
it creates no file, reports nothing, and leaves the session state
unchanged. -/
theorem capture_photo_no_camera_silent (s : CameraApp) (env : PhotoEnv)
    (h : s.camera = none) :
    capture_photo s env = { state := s, filesCreated := [], messages := [] } := by
  unfold capture_photo
  rw [h]

/-- C3 witness: the silent no-op at the initial (cameraless) state. -/
theorem capture_photo_no_camera_silent_witness :
    capture_photo CameraApp.default photoEnvTry =
      { state := CameraApp.default, filesCreated := [], messages := [] } :=
  capture_photo_no_camera_silent CameraApp.default photoEnvTry rfl

/-- C4: from any reachable state, immediately after `switch_camera`
returns the recording flag is false (and the writer handle is gone):
if recording was active the switch stops it before releasing and
re-opening the device. -/
theorem switch_camera_never_recording (s : CameraApp) (env : InitEnv)
    (h : Reachable s) :
    (switch_camera s env).is_recording = false ∧
    (switch_camera s env).video_writer = none :=
  switch_camera_stopped s env (reachable_writerInv s h)

/-- C4 witness: switching away from the concrete recording session
ends with recording off. -/
theorem switch_camera_never_recording_witness :
    (switch_camera recApp initEnvOk).is_recording = false ∧
    (switch_camera recApp initEnvOk).video_writer = none :=
  switch_camera_never_recording recApp initEnvOk recApp_reachable

/-- C5: if the freshly created writer reports not-opened,
`start_recording` fails atomically: the session is returned unchanged,
so a writer handle that was `none` stays `none` and a recording flag
that was off stays off. -/
theorem start_recording_writer_not_opened (s : CameraApp) (env : StartEnv)
    (hc : s.camera.isSome = true) (hn : env.writerNewOk = true)
    (ho : env.writerOpened = false) (hw : s.video_writer = none)
    (hr : s.is_recording = false) :
    start_recording s env = s ∧
    (start_recording s env).video_writer = none ∧
    (start_recording s env).is_recording = false := by
  have he : start_recording s env = s :=
    start_recording_unchanged s env (Or.inr (Or.inr ho))
  exact ⟨he, by rw [he, hw], by rw [he, hr]⟩

/-- C5 witness: the not-opened failure at the concrete open-camera
session. -/
theorem start_recording_writer_not_opened_witness :
    start_recording camApp notOpenedEnv = camApp ∧
    (start_recording camApp notOpenedEnv).video_writer = none ∧
    (start_recording camApp notOpenedEnv).is_recording = false :=
  start_recording_writer_not_opened camApp notOpenedEnv rfl rfl rfl rfl rfl

/-- C6: on a successful start, the writer is opened with fps = v when
the device query returned v with 0 < v ≤ 120, and with fps = 30
otherwise — both when the query returned an out-of-range value (such
as 0 or 200) and when it failed. -/
theorem start_recording_fps_clamp (s : CameraApp) (env : StartEnv)
    (hc : s.camera.isSome = true) (hn : env.writerNewOk = true)
    (ho : env.writerOpened = true) :
    ∃ w : VideoWriter, (start_recording s env).video_writer = some w ∧
      (∀ v : Rat, env.fpsQuery = some v →
        ((0 < v ∧ v ≤ 120) → w.fps = v) ∧ (¬(0 < v ∧ v ≤ 120) → w.fps = 30)) ∧
      (env.fpsQuery = none → w.fps = 30) := by
  refine ⟨newWriter s env, ?_, ?_, ?_⟩
  · rw [start_recording_success s env hc hn ho]
  · intro v hv
    refine ⟨fun hcl => ?_, fun hcl => ?_⟩
    · simp [newWriter, recordingFps, hv, hcl]
    · simp [newWriter, recordingFps, hv, hcl]
  · intro hv
    norm_num [newWriter, recordingFps, hv]

/-- C6 witness: a device reporting 200 fps gets the substitute 30. -/
theorem start_recording_fps_clamp_witness :
    ∃ w : VideoWriter, (start_recording camApp fpsEnv200).video_writer = some w ∧
      (∀ v : Rat, fpsEnv200.fpsQuery = some v →
        ((0 < v ∧ v ≤ 120) → w.fps = v) ∧ (¬(0 < v ∧ v ≤ 120) → w.fps = 30)) ∧
      (fpsEnv200.fpsQuery = none → w.fps = 30) :=
  start_recording_fps_clamp camApp fpsEnv200 rfl rfl rfl

/-- C7: when the device applies a resolution different from the
request, `init_camera` stores the device-reported width and height as
the effective resolution, and a subsequent successful
`start_recording` opens its writer at exactly those values. -/
theorem init_stores_effective_resolution (s : CameraApp) (envI : InitEnv)
    (w h : Int) (hn : envI.newOk = true) (ho : envI.isOpened = true)
    (hw : envI.getWidth = some w) (hh : envI.getHeight = some h)
    (envS : StartEnv) (hsn : envS.writerNewOk = true)
    (hso : envS.writerOpened = true) :
    (init_camera s envI).frame_width = w ∧
    (init_camera s envI).frame_height = h ∧
    ∃ wr : VideoWriter,
      (start_recording (init_camera s envI) envS).video_writer = some wr ∧
      wr.frameWidth = w ∧ wr.frameHeight = h := by
  have he := init_camera_success s envI w h hn ho hw hh
  refine ⟨by rw [he], by rw [he],
    newWriter (init_camera s envI) envS, ?_, ?_, ?_⟩
  · rw [start_recording_success (init_camera s envI) envS (by rw [he]; rfl) hsn hso]
  · simp [newWriter, he]
  · simp [newWriter, he]

/-- C7 witness: a device that applies 320×200 to the default 640×480
request; the subsequent recording writer carries 320×200. -/
theorem init_stores_effective_resolution_witness :
    (init_camera CameraApp.default initEnv320).frame_width = 320 ∧
    (init_camera CameraApp.default initEnv320).frame_height = 200 ∧
    ∃ wr : VideoWriter,
      (start_recording (init_camera CameraApp.default initEnv320)
        startEnvOk).video_writer = some wr ∧
      wr.frameWidth = 320 ∧ wr.frameHeight = 200 :=
  init_stores_effective_resolution CameraApp.default initEnv320 320 200
    rfl rfl rfl rfl startEnvOk rfl rfl

/-- C8: a tick whose camera read fails or returns an empty frame
changes nothing: the previously stored preview frame (possibly `none`)
and every other session field stay exactly as they were. -/
theorem tick_failed_read_keeps_state (s : CameraApp) (env : TickEnv)
    (h : env.readOk = false ∨ env.frame.isEmpty = true) :
    update_frame s env = some s :=
  update_frame_skip_on_bad_read s env h

/-- C8 witness: a failed read on a session that already shows a
preview frame keeps that frame. -/
theorem tick_failed_read_keeps_state_witness :
    update_frame viewedApp failTickEnv = some viewedApp :=
  tick_failed_read_keeps_state viewedApp failTickEnv (Or.inl rfl)

/-- C9 counterexample: a converted frame whose byte buffer has length
4 (not a multiple of 3) makes the pixel-unpacking loop index byte 1 of
the final single-byte chunk — an out-of-bounds access, i.e. a panic
(`none`), contradicting the claim that the loop never panics on such
buffers. -/
theorem tick_panics_on_short_final_chunk :
    update_frame camApp badTickEnv = none := by decide

/-- C9 amended: the pixel-unpacking loop stays in bounds whenever the
converted frame's byte buffer is a whole number of 3-byte pixels
(length a multiple of 3, as a 3-channel RGB frame provides); for other
lengths the final chunk has fewer than 3 bytes and indexing it panics. -/
theorem tick_no_panic_on_whole_pixels (s : CameraApp) (env : TickEnv)
    (h : env.rgbFrame.data.length % 3 = 0) :
    (update_frame s env).isSome = true :=
  update_frame_total_of_mul3 s env h

/-- C9 witness: a fully successful tick on a complete 2×1 RGB buffer
does not panic. -/
theorem tick_no_panic_on_whole_pixels_witness :
    (update_frame camApp goodTickEnv).isSome = true :=
  tick_no_panic_on_whole_pixels camApp goodTickEnv (by decide)

/-- C10: when the writer handle is `None`, `stop_recording` leaves the
whole session unchanged; in particular the recording flag keeps its
prior value, because it is cleared only in the branch where a handle
was taken. -/
theorem stop_recording_no_writer_noop (s : CameraApp)
    (h : s.video_writer = none) :
    stop_recording s = s ∧
    (stop_recording s).is_recording = s.is_recording := by
  have he : stop_recording s = s := by unfold stop_recording; rw [h]
  exact ⟨he, by rw [he]⟩

/-- C10 witness: on the (unreachable) flag-without-handle session the
flag stays raised — `stop_recording` does not clear it. -/
theorem stop_recording_no_writer_noop_witness :
    stop_recording flaggedNoWriterApp = flaggedNoWriterApp ∧
    (stop_recording flaggedNoWriterApp).is_recording =
      flaggedNoWriterApp.is_recording :=
  stop_recording_no_writer_noop flaggedNoWriterApp rfl

end CameraModel
